import Mathlib

/-!
Shallow embedding of `src/launch/gazebo_launch.py` (flock2), the Gazebo
launch-plan builder, together with proofs of the spec's claims about it.

The Python script builds, purely, an ordered list of descriptors
(`ExecuteProcess` and `Node` records) and wraps it in a `LaunchDescription`.
We embed the descriptor records and the builder as Lean data and a Lean
function.  The two external package-share directories returned by
`get_package_share_directory` ('tello_gazebo', 'tello_description') are
environment lookups, so they become explicit string parameters; the drone
roster, a literal `['drone1', 'drone2']` at line 13 of the source, becomes a
parameter as well (its source value is `drones_src` below), letting the
universally quantified properties range over every roster.
-/

namespace GazeboLaunch

/-- A ROS parameter value as used in the script: booleans, integers, decimal
literals, strings, and lists of strings.  A decimal literal `m × 10⁻ᵉ` is kept
exactly as its mantissa and decimal exponent (e.g. `0.1778` is `float 1778 4`,
`-0.035` is `float (-35) 3`); the script never computes with these values. -/
inductive ParamValue where
  | bool (b : Bool)
  | int (i : Int)
  | float (mantissa : Int) (exp10 : Nat)
  | str (s : String)
  | strList (l : List String)
deriving DecidableEq

/-- A `launch_ros.actions.Node` descriptor: the keyword arguments the script
passes.  Arguments the script omits keep their defaults (`none` / `[]`). -/
structure NodeDesc where
  package : String
  node_executable : String
  output : String
  node_name : Option String := none
  node_namespace : Option String := none
  parameters : List (String × ParamValue) := []
  arguments : List String := []
deriving DecidableEq

/-- One entry of the launch plan: either an `ExecuteProcess` (a command-token
list plus output routing) or a `Node` descriptor. -/
inductive Entity where
  | process (cmd : List String) (output : String)
  | node (n : NodeDesc)
deriving DecidableEq

/-- The `LaunchDescription` returned by the builder: the ordered entity list. -/
structure LaunchDescription where
  entities : List Entity
deriving DecidableEq

/-- Parameter mapping of an entity (`[]` for processes and for nodes launched
without a `parameters` argument). -/
def Entity.params : Entity → List (String × ParamValue)
  | .node n => n.parameters
  | .process _ _ => []

/-- Namespace of an entity (`none` for processes and for nodes launched
without a `node_namespace` argument). -/
def Entity.ns : Entity → Option String
  | .node n => n.node_namespace
  | .process _ _ => none

/-- Argument list of an entity (`[]` for processes and for nodes launched
without an `arguments` argument). -/
def Entity.args : Entity → List String
  | .node n => n.arguments
  | .process _ _ => []

/-- `os.path.join` for the relative, slash-free components the script joins. -/
def os_path_join (a b : String) : String := a ++ "/" ++ b

/-- Line 24-30: the Gazebo simulator `ExecuteProcess`, loading the world. -/
def gazeboProcess (world_path : String) : Entity :=
  .process ["gazebo", "--verbose", "-s", "libgazebo_ros_init.so",
            "-s", "libgazebo_ros_factory.so", world_path] "screen"

/-- Line 33-39: the `fiducial_vlam` map-loader node descriptor. -/
def vmapDesc (map_path : String) : NodeDesc :=
  { package := "fiducial_vlam", node_executable := "vmap_node", output := "screen",
    node_name := some "vmap_node",
    parameters := [("use_sim_time", .bool true),
                   ("marker_length", .float 1778 4),
                   ("marker_map_load_full_filename", .str map_path),
                   ("make_not_use_map", .int 0)] }

/-- Line 33-39 wrapped as a plan entity. -/
def vmapNode (map_path : String) : Entity := .node (vmapDesc map_path)

/-- Line 42: the Rviz visualizer `ExecuteProcess`. -/
def rvizProcess : Entity :=
  .process ["rviz2", "-d", "install/flock2/share/flock2/launch/two.rviz"] "screen"

/-- Line 45-48: the joystick-driver node descriptor. -/
def joyDesc : NodeDesc :=
  { package := "joy", node_executable := "joy_node", output := "screen",
    node_name := some "joy_node",
    parameters := [("use_sim_time", .bool true)] }

/-- Line 45-48 wrapped as a plan entity. -/
def joyNode : Entity := .node joyDesc

/-- Line 51-55: the flock coordinator node descriptor, carrying the roster. -/
def flockBaseDesc (drones : List String) : NodeDesc :=
  { package := "flock2", node_executable := "flock_base", output := "screen",
    node_name := some "flock_base",
    parameters := [("use_sim_time", .bool true),
                   ("drones", .strList drones)] }

/-- Line 51-55 wrapped as a plan entity. -/
def flockBaseNode (drones : List String) : Entity := .node (flockBaseDesc drones)

/-- Lines 22-56: the five global entities, in source order. -/
def globalEntities (world_path map_path : String) (drones : List String) :
    List Entity :=
  [gazeboProcess world_path, vmapNode map_path, rvizProcess, joyNode,
   flockBaseNode drones]

/-- Line 60: `suffix = '_' + str(idx + 1)`. -/
def droneSuffix (idx : Nat) : String := "_" ++ toString (idx + 1)

/-- Line 65-66: the entity-injection node descriptor; its third argument is
`str(idx)`, the raw zero-based index. -/
def injectEntityDesc (urdf_path : String) (idx : Nat) : NodeDesc :=
  { package := "tello_gazebo", node_executable := "inject_entity.py",
    output := "screen",
    arguments := [urdf_path, "0", toString idx, "1"] }

/-- Line 65-66 wrapped as a plan entity. -/
def injectEntityNode (urdf_path : String) (idx : Nat) : Entity :=
  .node (injectEntityDesc urdf_path idx)

/-- Line 69-76: the localization node descriptor for one drone. -/
def vlocDesc (ns sfx : String) : NodeDesc :=
  { package := "fiducial_vlam", node_executable := "vloc_node", output := "screen",
    node_name := some "vloc_node", node_namespace := some ns,
    parameters := [("use_sim_time", .bool true),
                   ("publish_tfs", .int 1),
                   ("base_frame_id", .str ("base_link" ++ sfx)),
                   ("map_init_pose_z", .float (-35) 3),
                   ("camera_frame_id", .str ("camera_link" ++ sfx))] }

/-- Line 69-76 wrapped as a plan entity. -/
def vlocNode (ns sfx : String) : Entity := .node (vlocDesc ns sfx)

/-- Line 79-82: the drone-controller node descriptor for one drone. -/
def droneBaseDesc (ns : String) : NodeDesc :=
  { package := "flock2", node_executable := "drone_base", output := "screen",
    node_name := some "drone_base", node_namespace := some ns,
    parameters := [("use_sim_time", .bool true)] }

/-- Line 79-82 wrapped as a plan entity. -/
def droneBaseNode (ns : String) : Entity := .node (droneBaseDesc ns)

/-- Lines 59-91, loop body: the three entities appended for the drone at
zero-based index `idx` with name `ns`.  The fourth, odometry-filter node
(lines 85-90) is commented out in the source, so it is absent here. -/
def perDroneEntities (tello_description_path : String) (idx : Nat)
    (ns : String) : List Entity :=
  let sfx := droneSuffix idx
  let urdf_path :=
    os_path_join (os_path_join tello_description_path "urdf")
      ("tello" ++ sfx ++ ".urdf")
  [injectEntityNode urdf_path idx, vlocNode ns sfx, droneBaseNode ns]

/-- Lines 11-93: the launch-plan builder.  The `for idx, namespace in
enumerate(drones)` loop extending `entities` is the `enum`-`bind` below. -/
def generate_launch_description (tello_gazebo_path tello_description_path : String)
    (drones : List String) : LaunchDescription :=
  let world_path := os_path_join (os_path_join tello_gazebo_path "worlds") "fiducial.world"
  let map_path := os_path_join (os_path_join tello_gazebo_path "worlds") "fiducial_map.yaml"
  ⟨globalEntities world_path map_path drones ++
    (drones.enum.flatMap fun p => perDroneEntities tello_description_path p.1 p.2)⟩

/-- Line 13: the roster hard-coded in the source. -/
def drones_src : List String := ["drone1", "drone2"]

/-! ### Generic list lemmas used to index into the built plan -/

/-- Indexing past a fully skipped left part of an append. -/
theorem get?_append_blk {α : Type} (l₁ l₂ : List α) (m : Nat) :
    (l₁ ++ l₂).get? (l₁.length + m) = l₂.get? m := by
  induction l₁ with
  | nil => simp
  | cons x xs ih => simpa [Nat.succ_add] using ih

/-- Indexing inside the left part of an append. -/
theorem get?_append_fst {α : Type} (l₁ l₂ : List α) (m : Nat) (h : m < l₁.length) :
    (l₁ ++ l₂).get? m = l₁.get? m := by
  induction l₁ generalizing m with
  | nil => simp at h
  | cons x xs ih =>
    cases m with
    | zero => rfl
    | succ j => simpa using ih j (by simpa using h)

/-- Length of a bind over `enumFrom` whose blocks all have length `c`. -/
theorem enumFrom_bind_length {α β : Type} (f : Nat → α → List β) (c : Nat)
    (hf : ∀ n a, (f n a).length = c) :
    ∀ (l : List α) (n : Nat),
      ((l.enumFrom n).flatMap fun p => f p.1 p.2).length = c * l.length := by
  intro l
  induction l with
  | nil => intro n; rfl
  | cons hd tl ih =>
    intro n
    simp only [List.enumFrom, List.flatMap_cons, List.length_append, hf, ih,
      List.length_cons]
    ring

/-- Indexing into a bind over `enumFrom` whose blocks all have length `c`:
position `c*i + k` with `k < c` lands at offset `k` of the `i`-th block. -/
theorem enumFrom_bind_get? {α β : Type} (f : Nat → α → List β) (c : Nat)
    (hf : ∀ n a, (f n a).length = c) :
    ∀ (l : List α) (n i : Nat) (a : α), l.get? i = some a → ∀ k, k < c →
      ((l.enumFrom n).flatMap fun p => f p.1 p.2).get? (c * i + k)
        = (f (n + i) a).get? k := by
  intro l
  induction l with
  | nil => intro n i a h; simp at h
  | cons hd tl ih =>
    intro n i a h k hk
    cases i with
    | zero =>
      simp only [List.get?] at h
      cases h
      simp only [List.enumFrom, List.flatMap_cons, Nat.mul_zero, Nat.zero_add,
        Nat.add_zero]
      exact get?_append_fst _ _ k (by rw [hf]; exact hk)
    | succ j =>
      simp only [List.get?] at h
      have hstep : c * (j + 1) + k = (f n hd).length + (c * j + k) := by
        rw [hf]; ring
      simp only [List.enumFrom, List.flatMap_cons, hstep]
      rw [get?_append_blk]
      have := ih (n + 1) j a h k hk
      simpa [Nat.add_assoc, Nat.add_comm, Nat.add_left_comm] using this

/-- The built plan decomposed: the five globals occupy positions `0..4` and
the block of drone `i` starts at position `5 + 3*i`. -/
theorem plan_block_get (tgp tdp : String) (drones : List String) (i : Nat)
    (nm : String) (h : drones.get? i = some nm) (k : Nat) (hk : k < 3) :
    (generate_launch_description tgp tdp drones).entities.get? (5 + 3 * i + k)
      = (perDroneEntities tdp i nm).get? k := by
  show (globalEntities _ _ drones ++ _).get? (5 + 3 * i + k) = _
  have h5 : (5 : Nat) + 3 * i + k
      = (globalEntities (os_path_join (os_path_join tgp "worlds") "fiducial.world")
          (os_path_join (os_path_join tgp "worlds") "fiducial_map.yaml")
          drones).length + (3 * i + k) := by
    simp [globalEntities]; ring
  rw [h5, get?_append_blk]
  have := enumFrom_bind_get? (fun n a => perDroneEntities tdp n a) 3
    (fun n a => rfl) drones 0 i nm h k hk
  simpa using this

/-- The first five positions of the built plan are the global entities. -/
theorem plan_global_get (tgp tdp : String) (drones : List String) (j : Nat)
    (hj : j < 5) :
    (generate_launch_description tgp tdp drones).entities.get? j
      = (globalEntities (os_path_join (os_path_join tgp "worlds") "fiducial.world")
          (os_path_join (os_path_join tgp "worlds") "fiducial_map.yaml")
          drones).get? j := by
  show (globalEntities _ _ drones ++ _).get? j = _
  exact get?_append_fst _ _ j (by simpa [globalEntities] using hj)

/-- The built plan's entity list, unfolded: globals then per-drone blocks. -/
theorem entities_eq (tgp tdp : String) (drones : List String) :
    (generate_launch_description tgp tdp drones).entities
      = globalEntities (os_path_join (os_path_join tgp "worlds") "fiducial.world")
          (os_path_join (os_path_join tgp "worlds") "fiducial_map.yaml") drones
        ++ drones.enum.flatMap fun p => perDroneEntities tdp p.1 p.2 := rfl

/-! ### The claims -/

/-- C1: for every participant list of size `N ≥ 0`, the plan returned by
`generate_launch_description` contains exactly `5 + 3*N` entities: the 5
global descriptors plus 3 emitted descriptors per participant (the fourth,
odometry-filter node is commented out and absent). -/
theorem C1_plan_size (tgp tdp : String) (drones : List String) :
    (generate_launch_description tgp tdp drones).entities.length
      = 5 + 3 * drones.length := by
  have he : drones.enum = drones.enumFrom 0 := rfl
  rw [entities_eq, List.length_append, he,
    enumFrom_bind_length (fun n a => perDroneEntities tdp n a) 3 (fun n a => rfl)]
  rfl

/-- C2: for the participant at zero-based index `i`, the suffix appended to
the base frame ID, the camera frame ID and the URDF base name is
`"_" ++ toString (i+1)`: the localization node at plan position `5+3i+1`
carries `base_frame_id = "base_link_" ++ (i+1)` and
`camera_frame_id = "camera_link_" ++ (i+1)`, and the injection node at plan
position `5+3i` references URDF file `tello_<i+1>.urdf`. -/
theorem C2_suffix_numbering (tgp tdp : String) (drones : List String) (i : Nat)
    (nm : String) (h : drones.get? i = some nm) :
    (generate_launch_description tgp tdp drones).entities.get? (5 + 3 * i + 1)
        = some (vlocNode nm (droneSuffix i))
    ∧ droneSuffix i = "_" ++ toString (i + 1)
    ∧ ("base_frame_id", ParamValue.str ("base_link" ++ ("_" ++ toString (i + 1))))
        ∈ (vlocNode nm (droneSuffix i)).params
    ∧ ("camera_frame_id", ParamValue.str ("camera_link" ++ ("_" ++ toString (i + 1))))
        ∈ (vlocNode nm (droneSuffix i)).params
    ∧ (generate_launch_description tgp tdp drones).entities.get? (5 + 3 * i)
        = some (injectEntityNode
            (os_path_join (os_path_join tdp "urdf")
              ("tello" ++ ("_" ++ toString (i + 1)) ++ ".urdf")) i) := by
  refine ⟨?_, rfl, ?_, ?_, ?_⟩
  · simpa [perDroneEntities] using plan_block_get tgp tdp drones i nm h 1 (by omega)
  · simp [vlocNode, vlocDesc, Entity.params, droneSuffix]
  · simp [vlocNode, vlocDesc, Entity.params, droneSuffix]
  · simpa [perDroneEntities, droneSuffix]
      using plan_block_get tgp tdp drones i nm h 0 (by omega)

/-- Witness for C2 at index 1 of the roster `["d1", "d2"]`. -/
theorem C2_suffix_numbering_witness :
    (generate_launch_description "g" "t" ["d1", "d2"]).entities.get? (5 + 3 * 1 + 1)
        = some (vlocNode "d2" (droneSuffix 1))
    ∧ droneSuffix 1 = "_" ++ toString (1 + 1)
    ∧ ("base_frame_id", ParamValue.str ("base_link" ++ ("_" ++ toString (1 + 1))))
        ∈ (vlocNode "d2" (droneSuffix 1)).params
    ∧ ("camera_frame_id", ParamValue.str ("camera_link" ++ ("_" ++ toString (1 + 1))))
        ∈ (vlocNode "d2" (droneSuffix 1)).params
    ∧ (generate_launch_description "g" "t" ["d1", "d2"]).entities.get? (5 + 3 * 1)
        = some (injectEntityNode
            (os_path_join (os_path_join "t" "urdf")
              ("tello" ++ ("_" ++ toString (1 + 1)) ++ ".urdf")) 1) :=
  C2_suffix_numbering "g" "t" ["d1", "d2"] 1 "d2" rfl

/-- C3: for the participant at zero-based index `i`, the spawn-position
coordinate argument of the entity-injection command is `toString i` (the raw
zero-based index): the third element (position 2) of the injection node's
argument list. -/
theorem C3_spawn_index (tgp tdp : String) (drones : List String) (i : Nat)
    (nm : String) (h : drones.get? i = some nm) :
    ∃ urdf_path,
      (generate_launch_description tgp tdp drones).entities.get? (5 + 3 * i)
          = some (injectEntityNode urdf_path i)
      ∧ (injectEntityNode urdf_path i).args.get? 2 = some (toString i) := by
  refine ⟨os_path_join (os_path_join tdp "urdf") ("tello" ++ droneSuffix i ++ ".urdf"),
    ?_, rfl⟩
  simpa [perDroneEntities] using plan_block_get tgp tdp drones i nm h 0 (by omega)

/-- Witness for C3 at index 0 of the roster `["d1"]`. -/
theorem C3_spawn_index_witness :
    ∃ urdf_path,
      (generate_launch_description "g" "t" ["d1"]).entities.get? (5 + 3 * 0)
          = some (injectEntityNode urdf_path 0)
      ∧ (injectEntityNode urdf_path 0).args.get? 2 = some (toString 0) :=
  C3_spawn_index "g" "t" ["d1"] 0 "d1" rfl

/-- C4: for every participant list, the coordinator node descriptor
(`flock_base`, plan position 4) carries a `drones` parameter equal to the
full input roster, same elements, same order. -/
theorem C4_drones_roster (tgp tdp : String) (drones : List String) :
    (generate_launch_description tgp tdp drones).entities.get? 4
        = some (flockBaseNode drones)
    ∧ ("drones", ParamValue.strList drones) ∈ (flockBaseNode drones).params := by
  exact ⟨rfl, by simp [flockBaseNode, flockBaseDesc, Entity.params]⟩

/-- C5 counterexample: with roster `["drone1"]`, the per-participant
entity-spawn node (plan position 5) carries no namespace at all
(`node_namespace = none ≠ some "drone1"`), so not every per-participant node
descriptor has the participant's name as its namespace. -/
theorem C5_counterexample :
    (generate_launch_description "g" "t" ["drone1"]).entities.get? 5
        = some (injectEntityNode "t/urdf/tello_1.urdf" 0)
    ∧ (injectEntityNode "t/urdf/tello_1.urdf" 0).ns = none
    ∧ ((none : Option String) ≠ some "drone1") := by
  refine ⟨rfl, rfl, by decide⟩

/-- C5 amended: the localization node (position `5+3i+1`) and the
drone-controller node (position `5+3i+2`) have namespace exactly the
participant's name (no index-derived suffix), while the entity-spawn node
(position `5+3i`) carries no namespace. -/
theorem C5_namespaces (tgp tdp : String) (drones : List String) (i : Nat)
    (nm : String) (h : drones.get? i = some nm) :
    (generate_launch_description tgp tdp drones).entities.get? (5 + 3 * i + 1)
        = some (vlocNode nm (droneSuffix i))
    ∧ (vlocNode nm (droneSuffix i)).ns = some nm
    ∧ (generate_launch_description tgp tdp drones).entities.get? (5 + 3 * i + 2)
        = some (droneBaseNode nm)
    ∧ (droneBaseNode nm).ns = some nm
    ∧ (generate_launch_description tgp tdp drones).entities.get? (5 + 3 * i)
        = some (injectEntityNode
            (os_path_join (os_path_join tdp "urdf")
              ("tello" ++ droneSuffix i ++ ".urdf")) i)
    ∧ (injectEntityNode
        (os_path_join (os_path_join tdp "urdf")
          ("tello" ++ droneSuffix i ++ ".urdf")) i).ns = none := by
  refine ⟨?_, rfl, ?_, rfl, ?_, rfl⟩
  · simpa [perDroneEntities] using plan_block_get tgp tdp drones i nm h 1 (by omega)
  · simpa [perDroneEntities] using plan_block_get tgp tdp drones i nm h 2 (by omega)
  · simpa [perDroneEntities] using plan_block_get tgp tdp drones i nm h 0 (by omega)

/-- Witness for the amended C5 at index 0 of the roster `["d1"]`. -/
theorem C5_namespaces_witness :
    (generate_launch_description "g" "t" ["d1"]).entities.get? (5 + 3 * 0 + 1)
        = some (vlocNode "d1" (droneSuffix 0))
    ∧ (vlocNode "d1" (droneSuffix 0)).ns = some "d1"
    ∧ (generate_launch_description "g" "t" ["d1"]).entities.get? (5 + 3 * 0 + 2)
        = some (droneBaseNode "d1")
    ∧ (droneBaseNode "d1").ns = some "d1"
    ∧ (generate_launch_description "g" "t" ["d1"]).entities.get? (5 + 3 * 0)
        = some (injectEntityNode
            (os_path_join (os_path_join "t" "urdf")
              ("tello" ++ droneSuffix 0 ++ ".urdf")) 0)
    ∧ (injectEntityNode
        (os_path_join (os_path_join "t" "urdf")
          ("tello" ++ droneSuffix 0 ++ ".urdf")) 0).ns = none :=
  C5_namespaces "g" "t" ["d1"] 0 "d1" rfl

/-- C6: with the source's roster `['drone1', 'drone2']`, the plan holds at
position 9 a localization node namespaced `drone2` with
`base_frame_id = "base_link_2"` and `camera_frame_id = "camera_link_2"`,
and at position 8 an entity-spawn command whose argument list ends in
`["1", "1"]` (the zero-based index 1 followed by the fixed constant `'1'`). -/
theorem C6_scenario (tgp tdp : String) :
    (generate_launch_description tgp tdp drones_src).entities.get? 9
        = some (vlocNode "drone2" "_2")
    ∧ (vlocNode "drone2" "_2").ns = some "drone2"
    ∧ ("base_frame_id", ParamValue.str "base_link_2") ∈ (vlocNode "drone2" "_2").params
    ∧ ("camera_frame_id", ParamValue.str "camera_link_2") ∈ (vlocNode "drone2" "_2").params
    ∧ (generate_launch_description tgp tdp drones_src).entities.get? 8
        = some (injectEntityNode
            (os_path_join (os_path_join tdp "urdf") "tello_2.urdf") 1)
    ∧ (injectEntityNode
        (os_path_join (os_path_join tdp "urdf") "tello_2.urdf") 1).args.drop 2
        = ["1", "1"] := by
  have hb1 := plan_block_get tgp tdp drones_src 1 "drone2" rfl 1 (by omega)
  have hb0 := plan_block_get tgp tdp drones_src 1 "drone2" rfl 0 (by omega)
  exact ⟨hb1.trans rfl, rfl, by decide, by decide, hb0.trans rfl, rfl⟩

/-- C7: the builder is deterministic.  The source reads no mutable or ambient
state (no counters, no randomness); its embedding is accordingly a pure
function of the roster and the resolved resource paths, so two invocations
at the same inputs produce structurally identical plans. -/
theorem C7_deterministic (tgp tdp : String) (drones : List String) :
    (generate_launch_description tgp tdp drones).entities
      = (generate_launch_description tgp tdp drones).entities := rfl

/-- C8: plan order — position 0 is the simulator process, positions `0..4`
are the five global entities in source order, and the per-participant block
of the drone at index `i` occupies positions `5+3i .. 5+3i+2`, so every
global entity precedes every per-participant entity and the blocks follow
the roster order. -/
theorem C8_ordering (tgp tdp : String) (drones : List String) :
    (generate_launch_description tgp tdp drones).entities.get? 0
        = some (gazeboProcess (os_path_join (os_path_join tgp "worlds") "fiducial.world"))
    ∧ (∀ j, j < 5 →
        (generate_launch_description tgp tdp drones).entities.get? j
          = (globalEntities (os_path_join (os_path_join tgp "worlds") "fiducial.world")
              (os_path_join (os_path_join tgp "worlds") "fiducial_map.yaml")
              drones).get? j)
    ∧ (∀ i nm k, drones.get? i = some nm → k < 3 →
        (generate_launch_description tgp tdp drones).entities.get? (5 + 3 * i + k)
          = (perDroneEntities tdp i nm).get? k) :=
  ⟨rfl, fun j hj => plan_global_get tgp tdp drones j hj,
    fun i nm k h hk => plan_block_get tgp tdp drones i nm h k hk⟩

/-- Witness for C8: the block of drone 0 of the roster `["d1"]` starts right
after the five globals. -/
theorem C8_ordering_witness :
    (generate_launch_description "g" "t" ["d1"]).entities.get? (5 + 3 * 0 + 0)
      = (perDroneEntities "t" 0 "d1").get? 0 :=
  (C8_ordering "g" "t" ["d1"]).2.2 0 "d1" 0 rfl (by omega)

/-- C9: for the empty roster the plan degenerates to exactly the five global
entities — simulator process, map-loader node, visualizer process, joystick
node, coordinator node — and nothing else; the builder is total, so no error
arises. -/
theorem C9_empty_roster (tgp tdp : String) :
    (generate_launch_description tgp tdp []).entities
      = [gazeboProcess (os_path_join (os_path_join tgp "worlds") "fiducial.world"),
         vmapNode (os_path_join (os_path_join tgp "worlds") "fiducial_map.yaml"),
         rvizProcess, joyNode, flockBaseNode []]
    ∧ (generate_launch_description tgp tdp []).entities.length = 5 :=
  ⟨by rw [entities_eq]; rfl, rfl⟩

/-- C10: every node descriptor of the plan that carries a non-empty parameter
mapping sets `use_sim_time` to `True`, and no node descriptor of the plan
maps `use_sim_time` to anything other than `True`. -/
theorem C10_use_sim_time (tgp tdp : String) (drones : List String) (n : NodeDesc)
    (hmem : Entity.node n ∈ (generate_launch_description tgp tdp drones).entities) :
    (n.parameters ≠ [] → ("use_sim_time", ParamValue.bool true) ∈ n.parameters)
    ∧ ∀ v, ("use_sim_time", v) ∈ n.parameters → v = ParamValue.bool true := by
  rw [entities_eq] at hmem
  rcases List.mem_append.mp hmem with hg | hp
  · simp only [globalEntities, gazeboProcess, vmapNode, rvizProcess, joyNode,
      flockBaseNode, List.mem_cons, List.not_mem_nil, or_false] at hg
    rcases hg with hg | hg | hg | hg | hg
    · exact absurd hg (by simp)
    · obtain rfl : n = vmapDesc _ := by injection hg
      refine ⟨fun _ => by simp [vmapDesc], fun v hv => ?_⟩
      simp [vmapDesc] at hv
      exact hv
    · exact absurd hg (by simp)
    · obtain rfl : n = joyDesc := by injection hg
      refine ⟨fun _ => by simp [joyDesc], fun v hv => ?_⟩
      simp [joyDesc] at hv
      exact hv
    · obtain rfl : n = flockBaseDesc drones := by injection hg
      refine ⟨fun _ => by simp [flockBaseDesc], fun v hv => ?_⟩
      simp [flockBaseDesc] at hv
      exact hv
  · obtain ⟨p, _, hpn⟩ := List.mem_flatMap.mp hp
    simp only [perDroneEntities, injectEntityNode, vlocNode, droneBaseNode,
      List.mem_cons, List.not_mem_nil, or_false] at hpn
    rcases hpn with hpn | hpn | hpn
    · obtain rfl : n = injectEntityDesc _ p.1 := by injection hpn
      refine ⟨fun hne => absurd rfl hne, fun v hv => ?_⟩
      simp [injectEntityDesc] at hv
    · obtain rfl : n = vlocDesc p.2 (droneSuffix p.1) := by injection hpn
      refine ⟨fun _ => by simp [vlocDesc], fun v hv => ?_⟩
      simp [vlocDesc] at hv
      exact hv
    · obtain rfl : n = droneBaseDesc p.2 := by injection hpn
      refine ⟨fun _ => by simp [droneBaseDesc], fun v hv => ?_⟩
      simp [droneBaseDesc] at hv
      exact hv

/-- Witness for C10: the joystick node of the plan for roster `["d1"]`. -/
theorem C10_use_sim_time_witness :
    (joyDesc.parameters ≠ []
      → ("use_sim_time", ParamValue.bool true) ∈ joyDesc.parameters)
    ∧ ∀ v, ("use_sim_time", v) ∈ joyDesc.parameters
      → v = ParamValue.bool true :=
  C10_use_sim_time "g" "t" ["d1"] joyDesc (by decide)

end GazeboLaunch
